import Mathlib

/-!
Shallow embedding of `src/api.py`, a three-stage annotation pipeline:

* `get_protein_information` — one UniProt request per accession, per-item
  error isolation (failed accessions are skipped, no placeholder row);
* `get_ensembl_gene_ids` — one Ensembl cross-reference request per row of
  the stage-1 table, successes collected into a list that is then assigned
  as a new dataframe column (pandas raises `ValueError` when the list
  length differs from the row count);
* `get_gene_data` — one batched Ensembl lookup for all identifiers; any
  exception (HTTP error, or a `KeyError` while indexing the response by a
  submitted identifier) is caught and answered with `sys.exit()`;
* the `__main__` block, which outer-merges the stage-2 and stage-3 tables
  on the identifier column and writes the result to a spreadsheet.

Network responses are modelled by explicit oracle functions passed to each
stage.  A request-level failure (`requests` exception, or `raise_for_status`
raising `HTTPError`) is the `httpError` constructor; missing JSON fields are
`Option` fields or too-short lists, whose failed extraction corresponds to
the `KeyError`/`IndexError`/`TypeError` exceptions the Python code catches.
Dataframes are lists of row structures.
-/

/-- Outcome of one HTTP request as seen by the calling code: either an
exception before a body is available (connection error, or
`response.raise_for_status()` raising `HTTPError`), or a parsed JSON body. -/
inductive HttpResult (α : Type) where
  | httpError : HttpResult α
  | ok : α → HttpResult α
deriving DecidableEq

/-- The parts of the UniProt per-accession JSON body that
`get_protein_information` reads.  `recommendedFullName` models the value at
path protein / recommendedName / fullName / value, `none` when any key on
the path is absent.  `geneNames` models the list of values at
gene[i] / name / value, `organismNames` the list at
organism / names[i] / value, and `sequenceMass` the value at
sequence / mass (`none` when absent). -/
structure UniProtResponse where
  recommendedFullName : Option String
  geneNames : List String
  organismNames : List String
  sequenceMass : Option Nat
deriving DecidableEq

/-- One row of the stage-1 dataframe, i.e. the dict built for one accession
in `get_protein_information` (columns in source order). -/
structure ProteinRecord where
  accession : String
  proteinName : String
  gene : String
  organismScientific : String
  organismCommon : String
  molecularWeight : Nat
deriving DecidableEq

/-- Building the per-accession dict from the response body
(`api.py` lines 31-38).  Each field access can raise (`KeyError` /
`IndexError`); any such exception aborts the whole dict, which the caller
catches and turns into a skip.  `Option` sequencing models that abort. -/
def extract_protein_info (accession : String) (r : UniProtResponse) :
    Option ProteinRecord := do
  let pname ← r.recommendedFullName
  let g ← r.geneNames.get? 0
  let sci ← r.organismNames.get? 0
  let com ← r.organismNames.get? 1
  let mass ← r.sequenceMass
  some { accession := accession, proteinName := pname, gene := g,
         organismScientific := sci, organismCommon := com,
         molecularWeight := mass }

/-- One loop iteration of `get_protein_information`: the GET for one
accession followed by the dict construction; `none` means the iteration
raised and was caught (HTTP error or missing field), so nothing is appended. -/
def fetch_protein (uniprot : String → HttpResult UniProtResponse)
    (accession : String) : Option ProteinRecord :=
  match uniprot accession with
  | HttpResult.httpError => none
  | HttpResult.ok r => extract_protein_info accession r

/-- `get_protein_information` (`api.py` lines 7-50): iterate over the
accessions, appending a row for each accession whose request and field
extraction succeed; a caught exception skips the accession and the loop
continues with the rest. -/
def get_protein_information (uniprot : String → HttpResult UniProtResponse) :
    List String → List ProteinRecord
  | [] => []
  | a :: rest =>
    match fetch_protein uniprot a with
    | some row => row :: get_protein_information uniprot rest
    | none => get_protein_information uniprot rest

/-- One element of the Ensembl cross-reference response list; `id` models
the value at index entry / id that the code reads from the first element. -/
structure XrefEntry where
  id : String
deriving DecidableEq

/-- One loop iteration of `get_ensembl_gene_ids`: the GET keyed by the
lower-cased species and the gene, `raise_for_status`, then
`response_json[0]["id"]` — which raises `IndexError` on an empty list,
caught like the HTTP error, so both give `none` (nothing appended). -/
def fetch_xref (ensembl : String → String → HttpResult (List XrefEntry))
    (species gene : String) : Option String :=
  match ensembl species.toLower gene with
  | HttpResult.httpError => none
  | HttpResult.ok entries => (entries.get? 0).map XrefEntry.id

/-- The loop of `get_ensembl_gene_ids` (`api.py` lines 71-86) over the
zipped species / gene columns, returning the `ensembl_ids` accumulator
(successes only, encounter order — failed iterations append nothing)
together with the log of requests issued, as (lower-cased species, gene)
keys in table order, one per row. -/
def xref_loop (ensembl : String → String → HttpResult (List XrefEntry)) :
    List ProteinRecord → List String × List (String × String)
  | [] => ([], [])
  | r :: rest =>
    let p := xref_loop ensembl rest
    (match fetch_xref ensembl r.organismScientific r.gene with
     | some i => i :: p.1
     | none => p.1,
     (r.organismScientific.toLower, r.gene) :: p.2)

/-- The exception pandas raises on `df["Ensembl Gene ID"] = ensembl_ids`
when the list length differs from the dataframe length; it is raised
outside any try block of `api.py`, so it propagates out of
`get_ensembl_gene_ids`. -/
inductive PandasError where
  | lengthMismatch : PandasError
deriving DecidableEq

/-- One row of the stage-2 dataframe: a stage-1 row with the appended
Ensembl Gene ID column value. -/
structure XrefRecord where
  protein : ProteinRecord
  ensemblGeneId : String
deriving DecidableEq

/-- `get_ensembl_gene_ids` (`api.py` lines 53-89): run the per-row lookup
loop, then assign the collected list as the new column.  The assignment
positionally aligns list entries with rows and succeeds exactly when the
lengths agree; otherwise pandas raises `ValueError` (modelled as
`Except.error`). -/
def get_ensembl_gene_ids (ensembl : String → String → HttpResult (List XrefEntry))
    (df : List ProteinRecord) : Except PandasError (List XrefRecord) :=
  let ensembl_ids := (xref_loop ensembl df).1
  if ensembl_ids.length = df.length then
    Except.ok (List.zipWith (fun r i => { protein := r, ensemblGeneId := i }) df ensembl_ids)
  else
    Except.error PandasError.lengthMismatch

/-- The fields of one entry of the batched Ensembl lookup response body that
`get_gene_data` reads: the values at keys description and seq_region_name. -/
structure GeneEntry where
  description : String
  seq_region_name : String
deriving DecidableEq

/-- The batched response body is a JSON object mapping identifiers to
entries, modelled as an association list; `json_index` models
`response_json[ensembl_id]`, `none` when the key is absent (in Python a
`KeyError`, or a `TypeError` when the service maps an unknown identifier
to null — both are caught by the same handler). -/
def json_index (resp : List (String × GeneEntry)) (i : String) : Option GeneEntry :=
  (resp.find? (fun p => p.1 == i)).map Prod.snd

/-- One row of the stage-3 dataframe (the dict built at `api.py`
lines 117-118). -/
structure GeneInfoRow where
  ensemblGeneId : String
  description : String
  seqRegionName : String
deriving DecidableEq

/-- The row-building loop of `get_gene_data` (`api.py` lines 116-119):
one row per submitted identifier, in submission order; indexing the
response by an absent identifier raises, which aborts the whole loop
(the partial `data` list is discarded by the handler), hence `none`. -/
def gene_rows (resp : List (String × GeneEntry)) :
    List String → Option (List GeneInfoRow)
  | [] => some []
  | i :: rest =>
    match json_index resp i, gene_rows resp rest with
    | some e, some tail =>
      some ({ ensemblGeneId := i, description := e.description,
              seqRegionName := e.seq_region_name } :: tail)
    | _, _ => none

/-- How `get_gene_data` terminates the process on failure: both handlers
call `sys.exit()` with no argument, which raises `SystemExit(None)`; an
uncaught `SystemExit(None)` makes the interpreter exit with status 0
(Python semantics of `sys.exit`). -/
inductive ExitOutcome where
  | exited : Nat → ExitOutcome
deriving DecidableEq

/-- `get_gene_data` (`api.py` lines 92-131): one batched POST for all
identifiers; on an HTTP error, or on any exception while building the rows,
the handler logs and calls `sys.exit()` (exit status 0); otherwise the
collected rows form the returned dataframe. -/
def get_gene_data (post : List String → HttpResult (List (String × GeneEntry)))
    (ensembl_ids : List String) : Except ExitOutcome (List GeneInfoRow) :=
  match post ensembl_ids with
  | HttpResult.httpError => Except.error (ExitOutcome.exited 0)
  | HttpResult.ok resp =>
    match gene_rows resp ensembl_ids with
    | some rows => Except.ok rows
    | none => Except.error (ExitOutcome.exited 0)

/-- One row of the merged dataframe: the join key, the stage-2 side
(the six protein columns travel together; `none` = that side unmatched,
its cells null-filled), and the two stage-3 columns (`none` = unmatched). -/
structure MergedRow where
  ensemblGeneId : String
  protein : Option ProteinRecord
  description : Option String
  seqRegionName : Option String
deriving DecidableEq

/-- The rows an outer merge produces for one left (stage-2) row: paired
with every right row sharing its key, or a single right-null-filled row
when no right row matches (pandas `DataFrame.merge` semantics for
`how="outer"`, `on` the identifier column). -/
def merge_left_part (right : List GeneInfoRow) (l : XrefRecord) : List MergedRow :=
  match right.filter (fun g => g.ensemblGeneId == l.ensemblGeneId) with
  | [] => [{ ensemblGeneId := l.ensemblGeneId, protein := some l.protein,
             description := none, seqRegionName := none }]
  | g0 :: gs =>
    (g0 :: gs).map (fun g => { ensemblGeneId := l.ensemblGeneId,
                               protein := some l.protein,
                               description := some g.description,
                               seqRegionName := some g.seqRegionName })

/-- `prot_inf_df.merge(gene_inf_df, how="outer", on="Ensembl Gene ID")`
(`api.py` line 142), modelled by its documented semantics: every matched
left/right pair of rows, left rows without a match null-filled on the
right, plus right rows without a match null-filled on the left. -/
def merge_outer (left : List XrefRecord) (right : List GeneInfoRow) : List MergedRow :=
  (left.flatMap (merge_left_part right)) ++
  (right.filter (fun g => left.all (fun l => ! (l.ensemblGeneId == g.ensemblGeneId)))).map
    (fun g => { ensemblGeneId := g.ensemblGeneId, protein := none,
                description := some g.description,
                seqRegionName := some g.seqRegionName })

/-- The three network collaborators of the pipeline. -/
structure Env where
  uniprot : String → HttpResult UniProtResponse
  xref : String → String → HttpResult (List XrefEntry)
  post : List String → HttpResult (List (String × GeneEntry))

/-- Observable outcome of one run of the `__main__` block: the process
exit status, and the merged table written to the spreadsheet (`none` when
the run terminated before reaching `result.to_excel`). -/
structure RunResult where
  exitStatus : Nat
  fileWritten : Option (List MergedRow)
deriving DecidableEq

/-- The hardcoded accession list of the `__main__` block. -/
def main_accessions : List String := ["P12345", "Q8N726", "O00255"]

/-- The `__main__` block (`api.py` lines 135-147): stage 1, stage 2
(an uncaught pandas `ValueError` there crashes the interpreter with a
traceback, exit status 1), stage 3 on the identifier column as a list
(`sys.exit()` there ends the process with status 0 before any file is
written), then the outer merge and the spreadsheet export; a completed
run exits with status 0 after writing the file. -/
def main_run (env : Env) : RunResult :=
  let prot_inf_df := get_protein_information env.uniprot main_accessions
  match get_ensembl_gene_ids env.xref prot_inf_df with
  | Except.error _ => { exitStatus := 1, fileWritten := none }
  | Except.ok df2 =>
    match get_gene_data env.post (df2.map XrefRecord.ensemblGeneId) with
    | Except.error (ExitOutcome.exited c) => { exitStatus := c, fileWritten := none }
    | Except.ok gene_inf_df =>
      { exitStatus := 0, fileWritten := some (merge_outer df2 gene_inf_df) }

/-! Concrete sample data, used to instantiate the theorems below. -/

/-- A sample protein name. -/
def sampleName : String := "Aspartate aminotransferase"

/-- A sample gene symbol. -/
def sampleGene : String := "GOT1"

/-- A sample scientific organism name (mixed case, so that the lower-casing
step is exercised). -/
def sampleSci : String := "Homo sapiens"

/-- A sample common organism name. -/
def sampleCom : String := "Human"

/-- A sample sequence mass. -/
def sampleMass : Nat := 46248

/-- A sample Ensembl gene identifier. -/
def sampleId : String := "ENSG1"

/-- A second Ensembl gene identifier, kept out of `annResponse`. -/
def sampleId2 : String := "ENSG2"

/-- The first hardcoded accession. -/
def accFirst : String := "P12345"

/-- The second hardcoded accession. -/
def accSecond : String := "Q8N726"

/-- An accession whose request fails under `uniprotOneBad`. -/
def accBad : String := "BADACC"

/-- A complete UniProt response body. -/
def sampleResponse : UniProtResponse :=
  { recommendedFullName := some sampleName, geneNames := [sampleGene],
    organismNames := [sampleSci, sampleCom], sequenceMass := some sampleMass }

/-- The stage-1 row extracted from `sampleResponse` for `accFirst`. -/
def sampleProtein : ProteinRecord :=
  { accession := accFirst, proteinName := sampleName, gene := sampleGene,
    organismScientific := sampleSci, organismCommon := sampleCom,
    molecularWeight := sampleMass }

/-- UniProt oracle answering every accession with `sampleResponse`. -/
def uniprotAll : String → HttpResult UniProtResponse :=
  fun _ => HttpResult.ok sampleResponse

/-- UniProt oracle failing exactly on `accBad`. -/
def uniprotOneBad : String → HttpResult UniProtResponse :=
  fun a => if a = accBad then HttpResult.httpError else HttpResult.ok sampleResponse

/-- Cross-reference oracle answering every key with one entry `sampleId`. -/
def xrefAll : String → String → HttpResult (List XrefEntry) :=
  fun _ _ => HttpResult.ok [{ id := sampleId }]

/-- Cross-reference oracle failing every request. -/
def xrefDown : String → String → HttpResult (List XrefEntry) :=
  fun _ _ => HttpResult.httpError

/-- Batched-lookup oracle failing the request (HTTP error). -/
def postDown : List String → HttpResult (List (String × GeneEntry)) :=
  fun _ => HttpResult.httpError

/-- A sample batched-lookup response entry. -/
def geneEntry1 : GeneEntry := { description := "aminotransferase gene", seq_region_name := "10" }

/-- A batched-lookup response body that knows only `sampleId`. -/
def annResponse : List (String × GeneEntry) := [(sampleId, geneEntry1)]

/-- Batched-lookup oracle answering every request with `annResponse`. -/
def postKnown : List String → HttpResult (List (String × GeneEntry)) :=
  fun _ => HttpResult.ok annResponse

/-- Pipeline environment in which stages 1 and 2 succeed for every item and
the stage-3 batched call raises an HTTP error. -/
def envBatchFail : Env := { uniprot := uniprotAll, xref := xrefAll, post := postDown }

/-- Join key A (present only in the stage-2 side of the merge example). -/
def keyA : String := "EnsA"

/-- Join key B (present on both sides of the merge example). -/
def keyB : String := "EnsB"

/-- Join key C (present on both sides of the merge example). -/
def keyC : String := "EnsC"

/-- Join key D (present only in the stage-3 side of the merge example). -/
def keyD : String := "EnsD"

/-- Description of the key-D annotation row. -/
def descD : String := "gene d"

/-- Region name of the key-D annotation row. -/
def regD : String := "4"

/-- Stage-2 table of the merge example, with keys A, B, C. -/
def crossTable : List XrefRecord :=
  [{ protein := sampleProtein, ensemblGeneId := keyA },
   { protein := sampleProtein, ensemblGeneId := keyB },
   { protein := sampleProtein, ensemblGeneId := keyC }]

/-- Stage-3 table of the merge example, with keys B, C, D. -/
def annTable : List GeneInfoRow :=
  [{ ensemblGeneId := keyB, description := "gene b", seqRegionName := "2" },
   { ensemblGeneId := keyC, description := "gene c", seqRegionName := "3" },
   { ensemblGeneId := keyD, description := descD, seqRegionName := regD }]

/-! Helper lemmas. -/

/-- The stage-1 loop is `filterMap` of its per-accession body. -/
theorem get_protein_information_eq_filterMap
    (u : String → HttpResult UniProtResponse) (accs : List String) :
    get_protein_information u accs = accs.filterMap (fetch_protein u) := by
  induction accs with
  | nil => rfl
  | cons a rest ih =>
    cases h : fetch_protein u a <;>
      simp [get_protein_information, h, ih]

/-- The stage-1 loop distributes over list concatenation. -/
theorem get_protein_information_append
    (u : String → HttpResult UniProtResponse) (xs ys : List String) :
    get_protein_information u (xs ++ ys)
      = get_protein_information u xs ++ get_protein_information u ys := by
  induction xs with
  | nil => rfl
  | cons a rest ih =>
    cases h : fetch_protein u a <;>
      simp [get_protein_information, h, ih]

/-- C3: for every accession list, `get_protein_information` returns one row
per accession whose processing raised no error, in encounter order (the
output is the `filterMap` of the per-accession body over the input), its
row count equals the number of non-failing accessions, and is at most the
input length. -/
theorem c3_one_row_per_success (u : String → HttpResult UniProtResponse)
    (accs : List String) :
    get_protein_information u accs = accs.filterMap (fetch_protein u) ∧
    (get_protein_information u accs).length
      = (accs.filter (fun a => (fetch_protein u a).isSome)).length ∧
    (get_protein_information u accs).length ≤ accs.length := by
  refine ⟨get_protein_information_eq_filterMap u accs, ?_, ?_⟩ <;>
    induction accs with
    | nil => simp [get_protein_information]
    | cons a rest ih =>
      cases h : fetch_protein u a <;>
        simp [get_protein_information, h, ih] <;> omega

/-- C4: a failing accession does not affect the others: the stage-1 loop
distributes over concatenation (every later accession is still processed
and contributes its row on success), and deleting a failing accession from
anywhere in the list leaves the output unchanged. -/
theorem c4_failure_isolated (u : String → HttpResult UniProtResponse)
    (xs ys : List String) (a : String) :
    get_protein_information u (xs ++ ys)
      = get_protein_information u xs ++ get_protein_information u ys ∧
    (fetch_protein u a = none →
      get_protein_information u (xs ++ a :: ys)
        = get_protein_information u (xs ++ ys)) := by
  refine ⟨get_protein_information_append u xs ys, fun h => ?_⟩
  rw [get_protein_information_append u xs (a :: ys),
      get_protein_information_append u xs ys]
  simp [get_protein_information, h]

/-- Witness for C4: under `uniprotOneBad` the accession `accBad` fails, and
the run over `[accFirst, accBad, accSecond]` equals the run with `accBad`
removed. -/
theorem c4_failure_isolated_witness :
    get_protein_information uniprotOneBad ([accFirst] ++ accBad :: [accSecond])
      = get_protein_information uniprotOneBad ([accFirst] ++ [accSecond]) :=
  (c4_failure_isolated uniprotOneBad [accFirst] [accSecond] accBad).2 (by decide)

/-- C7: every row emitted for a successfully resolved accession takes its
protein name from the recommended full name, its gene symbol from the first
listed gene, its scientific and common organism names from the first and
second entries of the organism-name list, and its molecular weight from the
sequence mass of the body the service returned for that accession. -/
theorem c7_field_provenance (u : String → HttpResult UniProtResponse)
    (a : String) (p : ProteinRecord) (h : fetch_protein u a = some p) :
    ∃ r, u a = HttpResult.ok r ∧
      r.recommendedFullName = some p.proteinName ∧
      r.geneNames.get? 0 = some p.gene ∧
      r.organismNames.get? 0 = some p.organismScientific ∧
      r.organismNames.get? 1 = some p.organismCommon ∧
      r.sequenceMass = some p.molecularWeight ∧
      p.accession = a := by
  unfold fetch_protein at h
  cases hu : u a with
  | httpError => rw [hu] at h; cases h
  | ok r =>
    rw [hu] at h
    refine ⟨r, rfl, ?_⟩
    unfold extract_protein_info at h
    simp only [Option.bind_eq_bind, Option.bind_eq_some, Option.some.injEq] at h
    obtain ⟨pn, hpn, g, hg, sci, hsci, com, hcom, mass, hmass, hp⟩ := h
    subst hp
    exact ⟨hpn, hg, hsci, hcom, hmass, rfl⟩

/-- Witness for C7: under `uniprotAll`, `accFirst` resolves to
`sampleProtein`, whose fields come from the stated places in
`sampleResponse`. -/
theorem c7_field_provenance_witness :
    ∃ r, uniprotAll accFirst = HttpResult.ok r ∧
      r.recommendedFullName = some sampleProtein.proteinName ∧
      r.geneNames.get? 0 = some sampleProtein.gene ∧
      r.organismNames.get? 0 = some sampleProtein.organismScientific ∧
      r.organismNames.get? 1 = some sampleProtein.organismCommon ∧
      r.sequenceMass = some sampleProtein.molecularWeight ∧
      sampleProtein.accession = accFirst :=
  c7_field_provenance uniprotAll accFirst sampleProtein (by decide)

/-- Projecting the stage-1 row back out of a positionally zipped stage-2 row
list recovers the original table when the lengths agree. -/
theorem zipWith_xref_map_protein :
    ∀ (df : List ProteinRecord) (ids : List String), ids.length = df.length →
      (List.zipWith (fun r i => XrefRecord.mk r i) df ids).map XrefRecord.protein = df := by
  intro df
  induction df with
  | nil => intro ids _; simp
  | cons r rest ih =>
    intro ids hlen
    cases ids with
    | nil => simp at hlen
    | cons i irest =>
      simp only [List.length_cons] at hlen
      simp [List.zipWith, ih irest (by omega)]

/-- C8: the stage-2 loop issues exactly one lookup per input row, in table
order, keyed by the lower-cased scientific organism name and the gene
symbol of that row; and whenever an iteration succeeds with identifier `i`,
the response for that key was a list whose first entry carries `i`. -/
theorem c8_one_lookup_per_row
    (ensembl : String → String → HttpResult (List XrefEntry))
    (df : List ProteinRecord) :
    (xref_loop ensembl df).2
      = df.map (fun r => (r.organismScientific.toLower, r.gene)) ∧
    (∀ species gene i, fetch_xref ensembl species gene = some i →
      ∃ entries, ensembl species.toLower gene = HttpResult.ok entries ∧
        (entries.get? 0).map XrefEntry.id = some i) := by
  constructor
  · induction df with
    | nil => rfl
    | cons r rest ih => simp [xref_loop, ih]
  · intro species gene i h
    unfold fetch_xref at h
    cases he : ensembl species.toLower gene with
    | httpError => rw [he] at h; cases h
    | ok entries => rw [he] at h; exact ⟨entries, rfl, h⟩

/-- Witness for C8: on the one-row table `[sampleProtein]`, the loop logs
exactly the lower-cased key of that row, and the successful lookup under
`xrefAll` yields the identifier of the first response entry. -/
theorem c8_one_lookup_per_row_witness :
    (xref_loop xrefAll [sampleProtein]).2
      = [sampleProtein].map (fun r => (r.organismScientific.toLower, r.gene)) ∧
    (∃ entries, xrefAll sampleSci.toLower sampleGene = HttpResult.ok entries ∧
      (entries.get? 0).map XrefEntry.id = some sampleId) :=
  ⟨(c8_one_lookup_per_row xrefAll [sampleProtein]).1,
   (c8_one_lookup_per_row xrefAll [sampleProtein]).2 sampleSci sampleGene sampleId
     (by decide)⟩

/-- C9: whenever `get_ensembl_gene_ids` returns a table, that table is the
input table with the identifier column appended: projecting the identifier
column away recovers every pre-existing row (all pre-existing cells and the
row order unchanged). -/
theorem c9_preexisting_cells_unchanged
    (ensembl : String → String → HttpResult (List XrefEntry))
    (df : List ProteinRecord) (out : List XrefRecord)
    (h : get_ensembl_gene_ids ensembl df = Except.ok out) :
    out.map XrefRecord.protein = df := by
  unfold get_ensembl_gene_ids at h
  dsimp only [] at h
  split at h
  · cases h
    exact zipWith_xref_map_protein df (xref_loop ensembl df).1 (by assumption)
  · cases h

/-- Witness for C9: under `xrefAll` the one-row table `[sampleProtein]`
succeeds, and the returned table projects back to `[sampleProtein]`. -/
theorem c9_preexisting_cells_unchanged_witness :
    ([{ protein := sampleProtein, ensemblGeneId := sampleId }] : List XrefRecord).map
      XrefRecord.protein = [sampleProtein] :=
  c9_preexisting_cells_unchanged xrefAll [sampleProtein]
    [{ protein := sampleProtein, ensemblGeneId := sampleId }] (by rfl)

/-- C2 (failing run): on a one-row table whose single lookup fails,
`get_ensembl_gene_ids` appends nothing to the identifier accumulator, so the
column assignment fails with a length mismatch (`ValueError`) instead of
returning a row-aligned table with a null identifier for the failed row. -/
theorem c2_misaligned_column_on_failure :
    get_ensembl_gene_ids xrefDown [sampleProtein]
      = Except.error PandasError.lengthMismatch := by
  rfl

/-- When every submitted identifier is a key of the response, the stage-3
row loop succeeds and emits rows whose identifier column is exactly the
submitted list (hence one row per submitted identifier, in order). -/
theorem gene_rows_of_all_present (resp : List (String × GeneEntry)) :
    ∀ ids : List String, (∀ i ∈ ids, (json_index resp i).isSome) →
      ∃ rows, gene_rows resp ids = some rows ∧
        rows.map GeneInfoRow.ensemblGeneId = ids := by
  intro ids
  induction ids with
  | nil => exact fun _ => ⟨[], rfl, rfl⟩
  | cons i rest ih =>
    intro hall
    obtain ⟨e, he⟩ := Option.isSome_iff_exists.mp (hall i (by simp))
    obtain ⟨tail, htail, hmap⟩ := ih (fun j hj => hall j (by simp [hj]))
    refine ⟨{ ensemblGeneId := i, description := e.description,
              seqRegionName := e.seq_region_name } :: tail, ?_, by simp [hmap]⟩
    simp [gene_rows, he, htail]

/-- When some submitted identifier is absent from the response, the stage-3
row loop raises (returns `none`). -/
theorem gene_rows_none_of_missing (resp : List (String × GeneEntry)) :
    ∀ (ids : List String) (i : String), i ∈ ids → json_index resp i = none →
      gene_rows resp ids = none := by
  intro ids
  induction ids with
  | nil => intro i hi; cases hi
  | cons j rest ih =>
    intro i hi hnone
    rcases List.mem_cons.mp hi with hij | hmem
    · subst hij
      simp [gene_rows, hnone]
    · cases hj : json_index resp j <;>
        simp [gene_rows, hj, ih i hmem hnone]

/-- C5 (counterexample to the claim as stated): with a successful batch call
whose response knows `sampleId` but not `sampleId2`, submitting
`[sampleId, sampleId2]` does not yield a table without the absent
identifier — indexing the response by the absent identifier raises, the
handler catches it, and the program terminates via `sys.exit()`. -/
theorem c5_absent_id_terminates :
    get_gene_data postKnown [sampleId, sampleId2]
      = Except.error (ExitOutcome.exited 0) := by
  rfl

/-- C5 (amended): when the batch call succeeds, `get_gene_data` builds one
row per submitted identifier; if every submitted identifier is a key of the
response the full table is returned (one row each), while any submitted
identifier absent from the response makes the whole call terminate the
program instead of being skipped. -/
theorem c5_rows_iff_all_present
    (post : List String → HttpResult (List (String × GeneEntry)))
    (ids : List String) (resp : List (String × GeneEntry))
    (hpost : post ids = HttpResult.ok resp) :
    ((∀ i ∈ ids, (json_index resp i).isSome) →
      ∃ rows, get_gene_data post ids = Except.ok rows ∧
        rows.length = ids.length) ∧
    (∀ i ∈ ids, json_index resp i = none →
      get_gene_data post ids = Except.error (ExitOutcome.exited 0)) := by
  constructor
  · intro hall
    obtain ⟨rows, hrows, hmap⟩ := gene_rows_of_all_present resp ids hall
    refine ⟨rows, ?_, ?_⟩
    · unfold get_gene_data
      rw [hpost]
      dsimp only
      rw [hrows]
    · calc rows.length = (rows.map GeneInfoRow.ensemblGeneId).length := by simp
        _ = ids.length := by rw [hmap]
  · intro i hi hnone
    unfold get_gene_data
    rw [hpost]
    dsimp only
    rw [gene_rows_none_of_missing resp ids i hi hnone]

/-- Witness for C5 (amended): submitting just `[sampleId]` under
`postKnown` returns a one-row table. -/
theorem c5_rows_iff_all_present_witness :
    ∃ rows, get_gene_data postKnown [sampleId] = Except.ok rows ∧
      rows.length = [sampleId].length :=
  (c5_rows_iff_all_present postKnown [sampleId] annResponse (by rfl)).1 (by decide)

/-- C10: when the batch call succeeds and every submitted identifier is a
key of the response, the returned table lists exactly the submitted
identifiers, in submission order (so the empty submission returns the empty
table). -/
theorem c10_rows_in_submission_order
    (post : List String → HttpResult (List (String × GeneEntry)))
    (ids : List String) (resp : List (String × GeneEntry))
    (hpost : post ids = HttpResult.ok resp)
    (hall : ∀ i ∈ ids, (json_index resp i).isSome) :
    ∃ rows, get_gene_data post ids = Except.ok rows ∧
      rows.map GeneInfoRow.ensemblGeneId = ids := by
  obtain ⟨rows, hrows, hmap⟩ := gene_rows_of_all_present resp ids hall
  refine ⟨rows, ?_, hmap⟩
  unfold get_gene_data
  rw [hpost]
  dsimp only
  rw [hrows]

/-- Witness for C10: submitting `[sampleId]` under `postKnown` returns a
table whose identifier column is `[sampleId]`. -/
theorem c10_rows_in_submission_order_witness :
    ∃ rows, get_gene_data postKnown [sampleId] = Except.ok rows ∧
      rows.map GeneInfoRow.ensemblGeneId = [sampleId] :=
  c10_rows_in_submission_order postKnown [sampleId] annResponse (by rfl) (by decide)

/-- C1 (failing run): in an environment where stages 1 and 2 fully succeed
and the stage-3 batched call raises an HTTP error, the program terminates
before the merge and export (no spreadsheet is created or modified) — but
via `sys.exit()` with no argument, so the process exit status is 0
(success), not the non-zero status the claim requires. -/
theorem c1_batch_failure_exits_zero_no_file :
    main_run envBatchFail = { exitStatus := 0, fileWritten := none } := by
  rfl

/-- Every merged row produced for a left (stage-2) row carries that row's
join key. -/
theorem merge_left_part_key (right : List GeneInfoRow) (l : XrefRecord) :
    ∀ row ∈ merge_left_part right l, row.ensemblGeneId = l.ensemblGeneId := by
  intro row hrow
  unfold merge_left_part at hrow
  split at hrow
  · have h := List.mem_singleton.mp hrow
    subst h
    rfl
  · rcases List.mem_map.mp hrow with ⟨g, hg, hrow2⟩
    subst hrow2
    rfl

/-- A left (stage-2) row always produces at least one merged row. -/
theorem merge_left_part_ne_nil (right : List GeneInfoRow) (l : XrefRecord) :
    merge_left_part right l ≠ [] := by
  unfold merge_left_part
  split <;> simp

/-- C6: the final merge is an outer join on the identifier column: a key
occurs in the merged table exactly when it occurs in the stage-2 table or
in the stage-3 table; a stage-2 row whose key has no stage-3 match survives
with its annotation fields null, and a stage-3 row whose key has no stage-2
match survives with its protein side null. -/
theorem c6_outer_join (left : List XrefRecord) (right : List GeneInfoRow)
    (k : String) :
    (k ∈ (merge_outer left right).map MergedRow.ensemblGeneId ↔
      k ∈ left.map XrefRecord.ensemblGeneId ∨
        k ∈ right.map GeneInfoRow.ensemblGeneId) ∧
    (∀ l ∈ left, (∀ g ∈ right, g.ensemblGeneId ≠ l.ensemblGeneId) →
      ({ ensemblGeneId := l.ensemblGeneId, protein := some l.protein,
         description := none, seqRegionName := none } : MergedRow)
        ∈ merge_outer left right) ∧
    (∀ g ∈ right, (∀ l ∈ left, l.ensemblGeneId ≠ g.ensemblGeneId) →
      ({ ensemblGeneId := g.ensemblGeneId, protein := none,
         description := some g.description,
         seqRegionName := some g.seqRegionName } : MergedRow)
        ∈ merge_outer left right) := by
  refine ⟨⟨?_, ?_⟩, ?_, ?_⟩
  · intro h
    rcases List.mem_map.mp h with ⟨row, hrow, hk⟩
    rcases List.mem_append.mp hrow with h1 | h2
    · rcases List.mem_flatMap.mp h1 with ⟨l, hl, hml⟩
      exact Or.inl (List.mem_map.mpr
        ⟨l, hl, by rw [← merge_left_part_key right l row hml, hk]⟩)
    · rcases List.mem_map.mp h2 with ⟨g, hg, hrow2⟩
      refine Or.inr (List.mem_map.mpr ⟨g, (List.mem_filter.mp hg).1, ?_⟩)
      rw [← hk, ← hrow2]
  · intro h
    rcases h with h | h
    · rcases List.mem_map.mp h with ⟨l, hl, hk⟩
      cases hml : merge_left_part right l with
      | nil => exact absurd hml (merge_left_part_ne_nil right l)
      | cons row rows =>
        refine List.mem_map.mpr ⟨row, ?_, ?_⟩
        · exact List.mem_append.mpr
            (Or.inl (List.mem_flatMap.mpr ⟨l, hl, by rw [hml]; simp⟩))
        · rw [merge_left_part_key right l row (by rw [hml]; simp), hk]
    · rcases List.mem_map.mp h with ⟨g, hg, hk⟩
      by_cases hmatch : ∃ l ∈ left, l.ensemblGeneId = g.ensemblGeneId
      · rcases hmatch with ⟨l, hl, hlg⟩
        cases hml : merge_left_part right l with
        | nil => exact absurd hml (merge_left_part_ne_nil right l)
        | cons row rows =>
          refine List.mem_map.mpr ⟨row, ?_, ?_⟩
          · exact List.mem_append.mpr
              (Or.inl (List.mem_flatMap.mpr ⟨l, hl, by rw [hml]; simp⟩))
          · rw [merge_left_part_key right l row (by rw [hml]; simp), hlg, hk]
      · refine List.mem_map.mpr
          ⟨_, List.mem_append.mpr (Or.inr (List.mem_map.mpr ⟨g, ?_, rfl⟩)), hk⟩
        refine List.mem_filter.mpr ⟨hg, ?_⟩
        simp only [List.all_eq_true]
        intro l hl
        simp only [Bool.not_eq_true', beq_eq_false_iff_ne, ne_eq]
        exact fun hEq => hmatch ⟨l, hl, hEq⟩
  · intro l hl hnomatch
    have hfil : right.filter (fun g => g.ensemblGeneId == l.ensemblGeneId) = [] := by
      rw [List.filter_eq_nil_iff]
      intro g hg
      simpa using hnomatch g hg
    have hsingle : merge_left_part right l
        = [{ ensemblGeneId := l.ensemblGeneId, protein := some l.protein,
             description := none, seqRegionName := none }] := by
      unfold merge_left_part
      rw [hfil]
    exact List.mem_append.mpr
      (Or.inl (List.mem_flatMap.mpr ⟨l, hl, by rw [hsingle]; simp⟩))
  · intro g hg hnomatch
    refine List.mem_append.mpr (Or.inr (List.mem_map.mpr ⟨g, ?_, rfl⟩))
    refine List.mem_filter.mpr ⟨hg, ?_⟩
    simp only [List.all_eq_true]
    intro l hl
    simpa using hnomatch l hl

/-- Witness for C6: with stage-2 keys A, B, C and stage-3 keys B, C, D the
merged table has exactly the keys A, B, C, D; the A row is null on the
annotation side and the D row is null on the protein side. -/
theorem c6_outer_join_witness :
    (merge_outer crossTable annTable).map MergedRow.ensemblGeneId
      = [keyA, keyB, keyC, keyD] ∧
    ({ ensemblGeneId := keyA, protein := some sampleProtein,
       description := none, seqRegionName := none } : MergedRow)
      ∈ merge_outer crossTable annTable ∧
    ({ ensemblGeneId := keyD, protein := none, description := some descD,
       seqRegionName := some regD } : MergedRow)
      ∈ merge_outer crossTable annTable :=
  ⟨by decide,
   (c6_outer_join crossTable annTable keyA).2.1
     { protein := sampleProtein, ensemblGeneId := keyA } (by decide) (by decide),
   (c6_outer_join crossTable annTable keyD).2.2
     { ensemblGeneId := keyD, description := descD, seqRegionName := regD }
     (by decide) (by decide)⟩
